import Mathlib

/-!
Verification development for the sinusbot support-ticket plugin
(`support.ts`).  The definitions below are a shallow embedding of the
classes of that file: `Role`, `Ticket`, `BaseStore`, `Support`, `Queue`,
`SupportSession`, the `Challenge` state machines (`RequestChallenge`,
`SupportResponseChallenge`) and `ChallengeQueue`.

Modelling conventions:
* JavaScript objects mutated in place become explicit state threading; a
  method that mutates `this` returns the updated value.
* Exceptions become an `Option String` component carrying the thrown
  message; mutations performed before a throw persist, as they do for the
  real mutable objects when an exception propagates out of a handler.
* `Promise` values are modelled by `JSPromise`; `await` unwraps a resolved
  value.  A `Promise` object used directly in a boolean position is truthy
  (see `jsTruthy`).
* Timestamps (`Date.now()`, `created`, `resolvedDate`) are `Int`
  milliseconds; JavaScript falsy defaults (`x || d`) are modelled by the
  `jsOr*` helpers (falsy means `0` / empty string).
-/

namespace Sinusbot

/-- a JavaScript `Promise`: either resolved with a value or rejected
with an error message. -/
inductive JSPromise (α : Type) where
  | resolved (value : α)
  | rejected (msg : String)
deriving DecidableEq

/-- a `Promise` tested in a boolean position: every JavaScript object is
truthy, so this is constantly `true` regardless of the resolved value. -/
def jsTruthy {α : Type} (_ : JSPromise α) : Bool := true

/-- `p` is a rejected promise. -/
def JSPromise.isRejected {α : Type} : JSPromise α → Bool
  | .resolved _ => false
  | .rejected _ => true

/-- JavaScript `a || b` for strings: the empty string is falsy. -/
def jsOrStr (a b : String) : String := if a = "" then b else a

/-- JavaScript `a || b` for numbers: `0` is falsy. -/
def jsOrNat (a b : Nat) : Nat := if a = 0 then b else a

/-- JavaScript `a || b` for numeric timestamps: `0` is falsy. -/
def jsOrInt (a b : Int) : Int := if a = 0 then b else a

/-- configuration record for one support role (interface `SupportRole`). -/
structure SupportRoleConfig where
  cid : String
  sgid : List String
  permBlacklist : Bool
  permViewTickets : Bool
  permDeveloper : Bool
  department : String
  description : String
deriving DecidableEq

/-- a connected client as far as the plugin reads it: stable uid, nickname
and the ids of the server groups it is a member of. -/
structure Client where
  uid : String
  nick : String
  sgids : List String
deriving DecidableEq

/-- class `Role`: the `perms` record is written only with the three fixed
keys `blacklist` / `tickets` / `developer`, so it is flattened into three
fields. -/
structure Role where
  isValid : Bool
  cid : String
  sgid : List String
  department : String
  description : String
  permBlacklistFlag : Bool
  permTicketsFlag : Bool
  permDeveloperFlag : Bool
deriving DecidableEq

/-- the `Role` constructor applied to a configured role (no `isValid`
override given, so `isValid` becomes `true`). -/
def Role.ofConfig (r : SupportRoleConfig) : Role :=
  { isValid := true
    cid := r.cid
    sgid := r.sgid
    department := r.department
    description := r.description
    permBlacklistFlag := r.permBlacklist
    permTicketsFlag := r.permViewTickets
    permDeveloperFlag := r.permDeveloper }

/-- `Role.empty()`: placeholder role with `isValid = false`. -/
def Role.emptyRole : Role :=
  { isValid := false
    cid := "0"
    sgid := []
    department := "_EMPTY_"
    description := "_EMPTY_"
    permBlacklistFlag := false
    permTicketsFlag := false
    permDeveloperFlag := false }

/-- `Role.deleted()`: `Role.empty` prefilled with the deleted-role
department and description. -/
def Role.deletedRole : Role :=
  { Role.emptyRole with department := "_DELETED_", description := "_DELETED_ROLE_" }

/-- `Role.serialize()`: a role serializes to its department name. -/
def Role.serialize (r : Role) : String := r.department

/-- `Role.hasRole(client)`: some server group of the client is among the
role's configured group ids. -/
def Role.hasRole (r : Role) (client : Client) : Bool :=
  client.sgids.any (fun g => r.sgid.contains g)

/-- interface `StorageProviderBlackListEntry`. -/
structure StorageProviderBlackListEntry where
  uid : String
  until_ : Int
  reason : String
  invoker : String
deriving DecidableEq

/-- ticket status, the string union `"open" | "closed"`. -/
inductive TicketStatus where
  | statusOpen
  | statusClosed
deriving DecidableEq

/-- interface `StorageProviderTicketEntry` (the serialized ticket: the
role is stored by department name). -/
structure StorageProviderTicketEntry where
  id : Nat
  status : TicketStatus
  issuer : String
  issue : String
  created : Int
  role : String
  resolved : Bool
  resolvedText : String
  resolvedDate : Int
  supporter : String
  rating : Option Nat
deriving DecidableEq

/-- the mutable contents of `BaseStore`: the two stored collections and
the ticket-id counter kept under the `config` key. -/
structure BaseStoreState where
  blacklist : List StorageProviderBlackListEntry
  tickets : List StorageProviderTicketEntry
  ticketId : Nat
deriving DecidableEq

/-- `BaseStore.isBlacklisted(uid)`: resolves with whether some blacklist
entry has this uid. -/
def BaseStore.isBlacklisted (uid : String) (st : BaseStoreState) : JSPromise Bool :=
  .resolved (st.blacklist.any (fun entry => entry.uid == uid))

/-- `BaseStore.addBlacklist(entry)`: the guard is
`if (this.isBlacklisted(entry.uid))` — it tests the Promise object itself
(not awaited), which is always truthy, so the rejection branch is always
taken and the blacklist is never extended. -/
def BaseStore.addBlacklist (entry : StorageProviderBlackListEntry) (st : BaseStoreState) :
    JSPromise Unit × BaseStoreState :=
  if jsTruthy (BaseStore.isBlacklisted entry.uid st) then
    (.rejected ("the uid " ++ entry.uid ++ " is already blacklisted"), st)
  else
    (.resolved (), { st with blacklist := st.blacklist ++ [entry] })

/-- `BaseStore.getTicketId()`: post-increment of `config.ticketId`,
returning the old value. -/
def BaseStore.getTicketId (st : BaseStoreState) : Nat × BaseStoreState :=
  (st.ticketId, { st with ticketId := st.ticketId + 1 })

/-- `BaseStore.addTicket(entry)`: draws a fresh id and stores
`{ id, ...entry }`.  The declared parameter type omits `id`, but the one
caller passes `ticket.serialize()`, which at runtime still carries an
`id` property, and the object spread comes after `id` — so the entry's
own (stale) id overwrites the fresh one in the stored record.  Only the
resolved return value is the fresh id. -/
def BaseStore.addTicket (entry : StorageProviderTicketEntry) (st : BaseStoreState) :
    Nat × BaseStoreState :=
  let p := BaseStore.getTicketId st
  (p.1, { p.2 with tickets := p.2.tickets ++ [entry] })

/-- `BaseStore.updateTicket(entry)`: replaces every stored ticket with the
same id, then reads the replaced entry back; resolves with its id, or
`none` when no stored ticket had the id. -/
def BaseStore.updateTicket (entry : StorageProviderTicketEntry) (st : BaseStoreState) :
    Option Nat × BaseStoreState :=
  let tickets := st.tickets.map (fun t => if t.id == entry.id then entry else t)
  let t := tickets.find? (fun t => t.id == entry.id)
  (t.map (fun t => t.id), { st with tickets := tickets })

/-- `BaseStore.getTicketBy("id", value)` (the specialization the `rate`
command uses): all stored tickets with the given id. -/
def BaseStore.getTicketById (id : Nat) (st : BaseStoreState) :
    List StorageProviderTicketEntry :=
  st.tickets.filter (fun t => t.id == id)

/-!
### Ticket
-/

/-- class `Ticket` (the live, deserialized form: the role is a `Role`
object). -/
structure Ticket where
  id : Nat
  issuer : String
  issue : String
  role : Role
  created : Int
  status : TicketStatus
  supporter : String
  resolved : Bool
  resolvedText : String
  resolvedDate : Int
  rating : Option Nat
deriving DecidableEq

/-- a freshly constructed ticket, `new Ticket(support)` with no prefill:
every field takes its declared default. -/
def Ticket.newTicket : Ticket :=
  { id := 0
    issuer := ""
    issue := ""
    role := Role.emptyRole
    created := 0
    status := .statusOpen
    supporter := ""
    resolved := false
    resolvedText := "_EMPTY_"
    resolvedDate := 0
    rating := none }

/-- the `Ticket` constructor applied to a full stored entry (the shape
`Ticket.fromStore` uses).  Each `prefill.x || d` falsy default is kept;
`created` is NOT copied from the prefill (the constructor never assigns
it), so it stays at its default `0`.  A non-empty role department is
resolved through `support.getRoleByDepartment` (here: a lookup in the
configured role list) and falls back to `Role.deleted()`; an empty
department is falsy, so the `else` branch assigns `Role.empty()`. -/
def Ticket.ofPrefill (roles : List Role) (prefill : StorageProviderTicketEntry) : Ticket :=
  { id := jsOrNat prefill.id 0
    issuer := jsOrStr prefill.issuer ""
    issue := jsOrStr prefill.issue ""
    role :=
      if prefill.role ≠ "" then
        match roles.find? (fun role => role.department == prefill.role) with
        | some role => role
        | none => Role.deletedRole
      else
        Role.emptyRole
    created := 0
    status := prefill.status
    supporter := if prefill.supporter ≠ "" then prefill.supporter else ""
    resolved := prefill.resolved || false
    resolvedDate := jsOrInt prefill.resolvedDate 0
    resolvedText := jsOrStr prefill.resolvedText "_EMPTY_"
    rating := prefill.rating }

/-- `Ticket.fromStore(support, entry)` = `new Ticket(support, entry)`. -/
def Ticket.fromStore (roles : List Role) (entry : StorageProviderTicketEntry) : Ticket :=
  Ticket.ofPrefill roles entry

/-- `Ticket.isValid()`. -/
def Ticket.isValid (t : Ticket) : Bool :=
  t.issuer.length > 0 && t.issue.length > 0 && t.role.isValid && t.created > 0

/-- `Ticket.serialize()`: the `this.role ? ... : ""` guard never takes the
empty branch because the constructor always assigns a role. -/
def Ticket.serialize (t : Ticket) : StorageProviderTicketEntry :=
  { id := t.id
    issuer := t.issuer
    issue := t.issue
    created := t.created
    role := t.role.serialize
    status := t.status
    supporter := jsOrStr t.supporter ""
    resolved := t.resolved
    resolvedText := t.resolvedText
    resolvedDate := t.resolvedDate
    rating := t.rating }

/-- `Ticket.setIssuer(uid)`. -/
def Ticket.setIssuer (uid : String) (t : Ticket) : Ticket := { t with issuer := uid }

/-- `Ticket.setIssue(issue)`. -/
def Ticket.setIssueText (issue : String) (t : Ticket) : Ticket := { t with issue := issue }

/-- `Ticket.setRole(role)`. -/
def Ticket.setRole (role : Role) (t : Ticket) : Ticket := { t with role := role }

/-- `Ticket.setCreated(date)`. -/
def Ticket.setCreated (date : Int) (t : Ticket) : Ticket := { t with created := date }

/-- `Support.saveTicket(ticket)`: try `updateTicket`; a falsy resolved id
(`undefined`, or the number `0`) falls through to `addTicket`. -/
def Support.saveTicket (t : Ticket) (st : BaseStoreState) : Nat × BaseStoreState :=
  let u := BaseStore.updateTicket t.serialize st
  match u.1 with
  | some id => if id = 0 then BaseStore.addTicket t.serialize u.2 else (id, u.2)
  | none => BaseStore.addTicket t.serialize u.2

/-- `Ticket.save()`: persists through the parent and stores the returned
id on the ticket. -/
def Ticket.save (t : Ticket) (st : BaseStoreState) : Ticket × BaseStoreState :=
  let p := Support.saveTicket t st
  ({ t with id := p.1 }, p.2)

/-- `Ticket.setSupporter(uid)`: assigns the supporter and persists. -/
def Ticket.setSupporter (uid : String) (t : Ticket) (st : BaseStoreState) :
    Ticket × BaseStoreState :=
  Ticket.save { t with supporter := uid } st

/-!
### Support orchestrator: environment, world, helpers
-/

/-- the read-only surroundings of the `Support` instance: the configured
roles (already mapped through the `Role` constructor at load), the
clients the backend currently reports online, the channel ids the backend
knows, the chat command name and the current clock (`Date.now()`). -/
structure SupportEnv where
  roles : List Role
  clients : List Client
  channels : List String
  cmdName : String
  now : Int
deriving DecidableEq

/-- `backend.getClientByUID(uid)`. -/
def SupportEnv.getClientByUID (env : SupportEnv) (uid : String) : Option Client :=
  env.clients.find? (fun c => c.uid == uid)

/-- `format.bold` of the sinusbot format collaborator (TeamSpeak BB
code). -/
def Format.bold (s : String) : String := "[B]" ++ s ++ "[/B]"

/-- `format.italic`. -/
def Format.italic (s : String) : String := "[I]" ++ s ++ "[/I]"

/-- `Support.command(suffix)`: full command name plus suffix. -/
def SupportEnv.command (env : SupportEnv) (suffix : String) : String :=
  env.cmdName ++ " " ++ suffix

/-- `Support.getRoleByDepartment(department)`. -/
def SupportEnv.getRoleByDepartment (env : SupportEnv) (department : String) : Option Role :=
  env.roles.find? (fun role => role.department == department)

/-- `Support.getClientSupportRoles(client, department?)`: all configured
roles matching the client; the department filter is skipped when the
department argument is falsy (absent or the empty string). -/
def SupportEnv.getClientSupportRoles (env : SupportEnv) (client : Client)
    (department : String) : List Role :=
  let roles := env.roles.filter (fun role => role.hasRole client)
  if department = "" then roles
  else roles.filter (fun role => role.department == department)

/-- `Support.isSupporter(client, department?)`. -/
def SupportEnv.isSupporter (env : SupportEnv) (client : Client) (department : String) : Bool :=
  (env.getClientSupportRoles client department).length > 0

/-- `Support.getOnlineSupporters(department?)`: the online clients that
are supporters of the department (the source also pairs each with its
roles; only the client part is ever consumed). -/
def SupportEnv.getOnlineSupporters (env : SupportEnv) (department : String) : List Client :=
  env.clients.filter (fun client => env.isSupporter client department)

/-- class `Queue`: one open ticket awaiting a supporter. -/
structure Queue where
  ticket : Ticket
deriving DecidableEq

/-- class `SupportSession`. -/
structure SupportSession where
  ticket : Ticket
deriving DecidableEq

/-- enum `RequestChallengeState`. -/
inductive RequestChallengeState where
  | ASK_INQUIRY
  | DESCRIBE_ISSUE
  | DONE
deriving DecidableEq

/-- class `RequestChallenge`: current state of the `Challenge` base plus
the ticket under construction. -/
structure RequestChallenge where
  state : RequestChallengeState
  ticket : Ticket
deriving DecidableEq

/-- enum `SupportResponseChallengeState`. -/
inductive SupportResponseChallengeState where
  | WAITING
  | REQUEST
  | ACCEPT
  | DECLINE
  | TIMEOUT
  | COMPLETE
  | UNRESOLVED
deriving DecidableEq

/-- class `SupportResponseChallenge`: state of the `Challenge` base, the
queue entry offered, and the candidate supporter uid.  The
`challengeQueue` back-reference is passed explicitly to the operations
that use it. -/
structure SupportResponseChallenge where
  state : SupportResponseChallengeState
  queueEntry : Queue
  uid : String
deriving DecidableEq

/-- class `ChallengeQueue<T>`. -/
structure ChallengeQueue (α : Type) where
  active : Option α
  challenges : List α
deriving DecidableEq

/-- a fresh `new ChallengeQueue()`. -/
def ChallengeQueue.newQueue {α : Type} : ChallengeQueue α :=
  { active := none, challenges := [] }

/-- `ChallengeQueue.next()`: shift the first queued item; when one
exists, make it active and report it as the item whose `start()` is
invoked (second component). -/
def ChallengeQueue.next {α : Type} (q : ChallengeQueue α) : ChallengeQueue α × Option α :=
  match q.challenges with
  | [] => (q, none)
  | item :: rest => ({ active := some item, challenges := rest }, some item)

/-- `ChallengeQueue.add(item)`: push, then `if (!this.active) this.next()`. -/
def ChallengeQueue.add {α : Type} (q : ChallengeQueue α) (item : α) :
    ChallengeQueue α × Option α :=
  let q1 : ChallengeQueue α := { q with challenges := q.challenges ++ [item] }
  if q.active.isNone then q1.next else (q1, none)

/-- `ChallengeQueue.stopActive()`: clear the active slot and start the
next queued item. -/
def ChallengeQueue.stopActive {α : Type} (q : ChallengeQueue α) : ChallengeQueue α × Option α :=
  ChallengeQueue.next { q with active := none }

/-- one external operation on a `ChallengeQueue`: an `add(item)` call or
a `stopActive()` call. -/
inductive CQOp (α : Type) where
  | add (item : α)
  | stopActive
deriving DecidableEq

/-- apply one queue operation, keeping the queue state (the started item
reported by the operation is inspected separately). -/
def CQOp.step {α : Type} (op : CQOp α) (q : ChallengeQueue α) : ChallengeQueue α :=
  match op with
  | .add item => (q.add item).1
  | .stopActive => q.stopActive.1

/-- run a sequence of queue operations from a fresh queue. -/
def CQOp.run {α : Type} (ops : List (CQOp α)) : ChallengeQueue α :=
  ops.foldl (fun q op => CQOp.step op q) ChallengeQueue.newQueue

/-- the mutable state owned by the `Support` instance together with the
outside-visible effects (chat messages sent, channel moves performed). -/
structure SupportWorld where
  queue : List Queue
  sessions : List SupportSession
  pendingRequest : List RequestChallenge
  challengeQueues : List (String × ChallengeQueue SupportResponseChallenge)
  store : BaseStoreState
  chatLog : List (String × String)
  moves : List (String × String)
deriving DecidableEq

/-- `client.chat(text)` reached through `Support.getClient(uid)`: when the
uid is not online `getClient` throws, reported as `false` (the caller
aborts the rest of its statement sequence); otherwise the message is
recorded. -/
def SupportWorld.chatTo (env : SupportEnv) (uid : String) (text : String)
    (w : SupportWorld) : SupportWorld × Bool :=
  match env.getClientByUID uid with
  | none => (w, false)
  | some _ => ({ w with chatLog := w.chatLog ++ [(uid, text)] }, true)

/-- JavaScript `Array.prototype.indexOf`: first index or `-1`. -/
def jsIndexOf {α : Type} [DecidableEq α] (l : List α) (a : α) : Int :=
  if a ∈ l then (l.indexOf a : Int) else -1

/-- JavaScript `Array.prototype.slice(begin, end)` (non-negative
arguments): a copy of the range, the array untouched. -/
def jsSlice {α : Type} (l : List α) (b e : Int) : List α :=
  (l.take e.toNat).drop b.toNat

/-- `Support.removeFromQueue(entry)`: `indexOf` then `splice(index, 1)`;
throws when the entry is not present. -/
def Support.removeFromQueue (entry : Queue) (w : SupportWorld) :
    SupportWorld × Option String :=
  let index := jsIndexOf w.queue entry
  if index < 0 then (w, some "Could not find queue entry!")
  else ({ w with queue := w.queue.eraseIdx index.toNat }, none)

/-- `Role.getChannel()`: backend channel lookup; `none` models the thrown
channel-not-found error. -/
def Role.getChannel (env : SupportEnv) (r : Role) : Option String :=
  if env.channels.contains r.cid then some r.cid else none

/-- `SupportSession.moveTogether()`: resolves both parties through
`Support.getClient`, which THROWS on an offline uid — so the
`if (!issuer || !supporter)` log-and-return guard below it is
unreachable, as is the `if (!channel)` guard after `role.getChannel()`
(which also throws instead of returning a falsy value).  On success both
clients are moved into the role channel. -/
def SupportSession.moveTogether (env : SupportEnv) (s : SupportSession)
    (w : SupportWorld) : SupportWorld × Option String :=
  match env.getClientByUID s.ticket.issuer with
  | none => (w, some ("Client with uid " ++ s.ticket.issuer ++ " not found!"))
  | some issuer =>
    match env.getClientByUID s.ticket.supporter with
    | none => (w, some ("Client with uid " ++ s.ticket.supporter ++ " not found!"))
    | some supporter =>
      match Role.getChannel env s.ticket.role with
      | none => (w, some ("could not get channel with id " ++ s.ticket.role.cid ++
          " for role " ++ s.ticket.role.department))
      | some cid =>
        ({ w with moves := w.moves ++ [(issuer.uid, cid), (supporter.uid, cid)] }, none)

/-- `SupportSession.start()`. -/
def SupportSession.start (env : SupportEnv) (s : SupportSession)
    (w : SupportWorld) : SupportWorld × Option String :=
  SupportSession.moveTogether env s w

/-- `Support.createSupportSession(ticket)`: the session is pushed onto
the session list BEFORE `start()` runs, so it stays there even when the
move throws. -/
def Support.createSupportSession (env : SupportEnv) (ticket : Ticket)
    (w : SupportWorld) : SupportWorld × Option String :=
  let session : SupportSession := { ticket := ticket }
  let w1 := { w with sessions := w.sessions ++ [session] }
  SupportSession.start env session w1

/-- `Queue.elevate(uid)`: remove from the open queue, stamp and persist
the supporter, and open a session. -/
def Queue.elevate (env : SupportEnv) (q : Queue) (uid : String)
    (w : SupportWorld) : SupportWorld × Option String :=
  let r := Support.removeFromQueue q w
  match r.2 with
  | some e => (r.1, some e)
  | none =>
    let p := Ticket.setSupporter uid q.ticket r.1.store
    let w2 := { r.1 with store := p.2 }
    Support.createSupportSession env p.1 w2

/-!
### SupportResponseChallenge operations

The abstract `Challenge` base keeps a sparse callback table; the
`SupportResponseChallenge` constructor registers callbacks for exactly
two states, `REQUEST` and `ACCEPT`.  `challenge()` throws
`No function available to execute next` for every other state, and
`nextState(s)` first records the new state and then invokes
`challenge()` — so the state change survives the throw.
-/

/-- `SupportResponseChallenge.request()` (the `REQUEST` callback):
resolve the issuer client (throws when offline), build the offer message,
then chat it to the supporter client (throws when offline). -/
def SupportResponseChallenge.request (env : SupportEnv)
    (c : SupportResponseChallenge) (w : SupportWorld) :
    SupportResponseChallenge × SupportWorld × Option String :=
  match env.getClientByUID c.queueEntry.ticket.issuer with
  | none => (c, w, some ("Client with uid " ++ c.queueEntry.ticket.issuer ++ " not found!"))
  | some client =>
    let text :=
      "\nNew support request from " ++ client.nick ++ " with issue:\n" ++
      Format.italic c.queueEntry.ticket.issue ++ "\n" ++
      "\nUse " ++ Format.bold (env.command "accept") ++ " to accept the support request" ++
      "\nUse " ++ Format.bold (env.command "decline") ++ " to decline the support request"
    match env.getClientByUID c.uid with
    | none => (c, w, some ("Client with uid " ++ c.uid ++ " not found!"))
    | some _ => (c, { w with chatLog := w.chatLog ++ [(c.uid, text)] }, none)

/-- `SupportResponseChallenge.accepted()` (the `ACCEPT` callback):
`this.queue.elevate(this.getSupporterClient().uid())`;
`getSupporterClient` throws when the supporter is offline. -/
def SupportResponseChallenge.accepted (env : SupportEnv)
    (c : SupportResponseChallenge) (w : SupportWorld) :
    SupportResponseChallenge × SupportWorld × Option String :=
  match env.getClientByUID c.uid with
  | none => (c, w, some ("Client with uid " ++ c.uid ++ " not found!"))
  | some client =>
    let r := Queue.elevate env c.queueEntry client.uid w
    (c, r.1, r.2)

/-- `Challenge.challenge()` for a `SupportResponseChallenge`: dispatch on
the registered callbacks (`REQUEST`, `ACCEPT`); every other state throws
the internal no-callback error. -/
def SupportResponseChallenge.challenge (env : SupportEnv)
    (c : SupportResponseChallenge) (w : SupportWorld) :
    SupportResponseChallenge × SupportWorld × Option String :=
  match c.state with
  | .REQUEST => SupportResponseChallenge.request env c w
  | .ACCEPT => SupportResponseChallenge.accepted env c w
  | _ => (c, w, some "No function available to execute next")

/-- `Challenge.nextState(state)` for a `SupportResponseChallenge`: set
the state, then run `challenge()`. -/
def SupportResponseChallenge.nextState (env : SupportEnv)
    (s : SupportResponseChallengeState) (c : SupportResponseChallenge)
    (w : SupportWorld) : SupportResponseChallenge × SupportWorld × Option String :=
  SupportResponseChallenge.challenge env { c with state := s } w

/-- `SupportResponseChallenge.start()`. -/
def SupportResponseChallenge.start (env : SupportEnv)
    (c : SupportResponseChallenge) (w : SupportWorld) :
    SupportResponseChallenge × SupportWorld × Option String :=
  SupportResponseChallenge.nextState env .REQUEST c w

/-- `SupportResponseChallenge.accept()`. -/
def SupportResponseChallenge.accept (env : SupportEnv)
    (c : SupportResponseChallenge) (w : SupportWorld) :
    SupportResponseChallenge × SupportWorld × Option String :=
  SupportResponseChallenge.nextState env .ACCEPT c w

/-- `SupportResponseChallenge.decline()`: `nextState(DECLINE)` first; the
`stopActive()` call on the owning queue runs only when that does not
throw.  (When it does run, the next queued challenge is started and the
queue's active slot holds it in its started state.) -/
def SupportResponseChallenge.decline (env : SupportEnv)
    (c : SupportResponseChallenge) (cq : ChallengeQueue SupportResponseChallenge)
    (w : SupportWorld) :
    SupportResponseChallenge × ChallengeQueue SupportResponseChallenge ×
      SupportWorld × Option String :=
  match SupportResponseChallenge.nextState env .DECLINE c w with
  | (c1, w1, some e) => (c1, cq, w1, some e)
  | (c1, w1, none) =>
    let p := cq.stopActive
    match p.2 with
    | none => (c1, p.1, w1, none)
    | some item =>
      let r := SupportResponseChallenge.start env item w1
      (c1, { p.1 with active := some r.1 }, r.2.1, r.2.2)

/-- sets `w.challengeQueues[uid]`. -/
def SupportWorld.setChallengeQueue (uid : String)
    (cq : ChallengeQueue SupportResponseChallenge) (w : SupportWorld) : SupportWorld :=
  { w with challengeQueues :=
      (w.challengeQueues.filter (fun p => p.1 ≠ uid)) ++ [(uid, cq)] }

/-- `Support.addChallengeQueue(uid, item)`: create the per-uid queue on
first use, `add` the item, and when `add` starts it run its `start()`,
keeping the started challenge in the active slot. -/
def Support.addChallengeQueue (env : SupportEnv) (uid : String)
    (item : SupportResponseChallenge) (w : SupportWorld) :
    SupportWorld × Option String :=
  let cq := ((w.challengeQueues.lookup uid).getD ChallengeQueue.newQueue)
  let p := cq.add item
  match p.2 with
  | none => (SupportWorld.setChallengeQueue uid p.1 w, none)
  | some started =>
    let r := SupportResponseChallenge.start env started w
    (SupportWorld.setChallengeQueue uid { p.1 with active := some r.1 } r.2.1, r.2.2)

/-- `Support.addQueue(ticket)`: push a queue entry, then fan a
`SupportResponseChallenge` out to every online supporter of the ticket's
department.  (A thrown start aborts the remaining fan-out, as the
`forEach` would.) -/
def Support.addQueue (env : SupportEnv) (ticket : Ticket) (w : SupportWorld) :
    SupportWorld × Option String :=
  let q : Queue := { ticket := ticket }
  let w1 := { w with queue := w.queue ++ [q] }
  (env.getOnlineSupporters ticket.role.department).foldl
    (fun acc client =>
      match acc.2 with
      | some e => (acc.1, some e)
      | none =>
        Support.addChallengeQueue env client.uid
          { state := .WAITING, queueEntry := q, uid := client.uid } acc.1)
    (w1, none)

/-- `Support.getChallengeComplete(challenge)`: the first statement is
`this.pendingRequest.slice(indexOf(challenge), 1)` — `Array.slice` does
not mutate and its result is discarded, so the pending list keeps the
completed challenge; then the finished ticket goes to `addQueue`. -/
def Support.getChallengeComplete (env : SupportEnv) (challenge : RequestChallenge)
    (w : SupportWorld) : SupportWorld × Option String :=
  let _ := jsSlice w.pendingRequest (jsIndexOf w.pendingRequest challenge) 1
  Support.addQueue env challenge.ticket w

/-- `Support.clientGetChallenge(client)`: first pending request whose
ticket issuer is the client's uid. -/
def Support.clientGetChallenge (uid : String) (w : SupportWorld) :
    Option RequestChallenge :=
  w.pendingRequest.find? (fun req => uid == req.ticket.issuer)

/-!
### RequestChallenge operations

The constructor registers callbacks for all three states
(`ASK_INQUIRY → checkInquiry`, `DESCRIBE_ISSUE → describeIssue`,
`DONE → complete`), so `challenge()` never hits the no-callback error
here.  `RequestChallenge.chat` goes through `Support.getClient`, which
throws when the issuer is offline; a throw aborts the rest of the
enclosing call but keeps the mutations already made.
-/

/-- the `RequestChallenge` constructor: fresh ticket stamped with the
requesting client's uid, initial state `ASK_INQUIRY`. -/
def RequestChallenge.make (uid : String) : RequestChallenge :=
  { state := .ASK_INQUIRY, ticket := Ticket.setIssuer uid Ticket.newTicket }

/-- the department list built by `checkInquiry`: per role the `request`
command, department, description and online supporter count. -/
def RequestChallenge.inquiryText (env : SupportEnv) : String :=
  env.roles.enum.foldl
    (fun res p =>
      res ++ "\n" ++ Format.bold (env.command ("request " ++ toString p.1)) ++
      "\n" ++ p.2.department ++ " - " ++ p.2.description ++
      "\n" ++ toString (env.getOnlineSupporters p.2.department).length ++ " online\n")
    ""

/-- `RequestChallenge.checkInquiry()` (the `ASK_INQUIRY` callback): two
chat messages to the issuer; a throw on the first skips the second. -/
def RequestChallenge.checkInquiry (env : SupportEnv) (rc : RequestChallenge)
    (w : SupportWorld) : SupportWorld :=
  let p := w.chatTo env rc.ticket.issuer "What inquiry do you have?"
  if p.2 then (p.1.chatTo env rc.ticket.issuer (RequestChallenge.inquiryText env)).1
  else p.1

/-- `RequestChallenge.describeIssue()` (the `DESCRIBE_ISSUE` callback). -/
def RequestChallenge.describeIssue (env : SupportEnv) (rc : RequestChallenge)
    (w : SupportWorld) : SupportWorld :=
  (w.chatTo env rc.ticket.issuer
    ("\nPlease describe your issue, use the following command:\n" ++
      Format.bold (env.command "describe YOUR_DESCRIPTION_HERE"))).1

/-- `RequestChallenge.complete()` (the `DONE` callback): stamp the
creation time, persist, notify the issuer and — when that chat did not
throw — invoke the `done` callback, which is
`Support.getChallengeComplete`. -/
def RequestChallenge.complete (env : SupportEnv) (rc : RequestChallenge)
    (w : SupportWorld) : RequestChallenge × SupportWorld :=
  let t1 := Ticket.setCreated env.now rc.ticket
  let p := Ticket.save t1 w.store
  let rc1 := { rc with ticket := p.1 }
  let w1 := { w with store := p.2 }
  let q := w1.chatTo env rc1.ticket.issuer
    "Your issue has been forwarded to an available Supporter!"
  (rc1, if q.2 then (Support.getChallengeComplete env rc1 q.1).1 else q.1)

/-- `Challenge.challenge()` for a `RequestChallenge`: dispatch on the
three registered callbacks. -/
def RequestChallenge.challenge (env : SupportEnv) (rc : RequestChallenge)
    (w : SupportWorld) : RequestChallenge × SupportWorld :=
  match rc.state with
  | .ASK_INQUIRY => (rc, RequestChallenge.checkInquiry env rc w)
  | .DESCRIBE_ISSUE => (rc, RequestChallenge.describeIssue env rc w)
  | .DONE => RequestChallenge.complete env rc w

/-- `Challenge.nextState(state)` for a `RequestChallenge`. -/
def RequestChallenge.nextState (env : SupportEnv) (s : RequestChallengeState)
    (rc : RequestChallenge) (w : SupportWorld) : RequestChallenge × SupportWorld :=
  RequestChallenge.challenge env { rc with state := s } w

/-- `RequestChallenge.setInquiry(index)`: an out-of-range index re-enters
`ASK_INQUIRY`; a valid one stores the role and advances. -/
def RequestChallenge.setInquiry (env : SupportEnv) (index : Nat)
    (rc : RequestChallenge) (w : SupportWorld) : RequestChallenge × SupportWorld :=
  match env.roles.get? index with
  | none => RequestChallenge.nextState env .ASK_INQUIRY rc w
  | some role =>
    RequestChallenge.nextState env .DESCRIBE_ISSUE
      { rc with ticket := Ticket.setRole role rc.ticket } w

/-- `RequestChallenge.setIssue(issue)`: shorter than 10 characters
re-prompts and re-enters `DESCRIBE_ISSUE`; otherwise the issue is stored
and the challenge advances to `DONE`. -/
def RequestChallenge.setIssue (env : SupportEnv) (issue : String)
    (rc : RequestChallenge) (w : SupportWorld) : RequestChallenge × SupportWorld :=
  if issue.length < 10 then
    let p := w.chatTo env rc.ticket.issuer
      "Your issue description seems kinda short! Please try again!"
    if p.2 then RequestChallenge.nextState env .DESCRIBE_ISSUE rc p.1
    else (rc, p.1)
  else
    RequestChallenge.nextState env .DONE
      { rc with ticket := Ticket.setIssueText issue rc.ticket } w

/-- one external input to a `RequestChallenge`: the `request <inquiry>`
or `describe <issue>` chat command. -/
inductive RequestOp where
  | request (index : Nat)
  | describe (issue : String)
deriving DecidableEq

/-- a direct method call (`setInquiry` / `setIssue`), with no state
guard. -/
def RequestChallenge.applyOp (env : SupportEnv) (op : RequestOp)
    (rc : RequestChallenge) (w : SupportWorld) : RequestChallenge × SupportWorld :=
  match op with
  | .request index => RequestChallenge.setInquiry env index rc w
  | .describe issue => RequestChallenge.setIssue env issue rc w

/-- a sequence of direct method calls. -/
def RequestChallenge.runOps (env : SupportEnv) (ops : List RequestOp)
    (rc : RequestChallenge) (w : SupportWorld) : RequestChallenge × SupportWorld :=
  ops.foldl (fun p op => RequestChallenge.applyOp env op p.1 p.2) (rc, w)

/-- one dispatched chat command: the command registration guards
`request` with `checkPermission(clientInRequestChallengeState(client,
ASK_INQUIRY))` and `describe` with the analogous `DESCRIBE_ISSUE` check,
so the handler only runs in the matching state. -/
def RequestChallenge.execCmd (env : SupportEnv) (op : RequestOp)
    (rc : RequestChallenge) (w : SupportWorld) : RequestChallenge × SupportWorld :=
  match op with
  | .request index =>
    if rc.state = .ASK_INQUIRY then RequestChallenge.setInquiry env index rc w
    else (rc, w)
  | .describe issue =>
    if rc.state = .DESCRIBE_ISSUE then RequestChallenge.setIssue env issue rc w
    else (rc, w)

/-- a sequence of dispatched chat commands. -/
def RequestChallenge.runCmds (env : SupportEnv) (ops : List RequestOp)
    (rc : RequestChallenge) (w : SupportWorld) : RequestChallenge × SupportWorld :=
  ops.foldl (fun p op => RequestChallenge.execCmd env op p.1 p.2) (rc, w)

/-- the invariant a guarded `RequestChallenge` maintains: the issuer is
non-empty from construction on, a challenge that reached
`DESCRIBE_ISSUE` carries a valid role, and one that reached `DONE`
carries a fully valid ticket. -/
def RequestChallengeInv (rc : RequestChallenge) : Prop :=
  0 < rc.ticket.issuer.length ∧
  (rc.state = .DESCRIBE_ISSUE → rc.ticket.role.isValid = true) ∧
  (rc.state = .DONE → rc.ticket.isValid = true)

/-- enum `SupportRequestResponse`. -/
inductive SupportRequestResponse where
  | OK
  | BLACKLISTED
deriving DecidableEq

/-- `Support.requestSupport(client)`: blacklist fast-path, otherwise a
new `RequestChallenge` is pushed onto `pendingRequest` and its initial
`challenge()` runs (the pushed object and the local variable alias the
same challenge, modelled by rewriting the appended element). -/
def Support.requestSupport (env : SupportEnv) (client : Client)
    (w : SupportWorld) : SupportRequestResponse × SupportWorld :=
  if (BaseStore.isBlacklisted client.uid w.store) = .resolved true then
    (.BLACKLISTED, w)
  else
    let rc := RequestChallenge.make client.uid
    let w1 := { w with pendingRequest := w.pendingRequest ++ [rc] }
    let p := RequestChallenge.challenge env rc w1
    (.OK, { p.2 with pendingRequest := p.2.pendingRequest.dropLast ++ [p.1] })

/-- `MAX_AGE_FOR_RATING`: 2 days in milliseconds. -/
def MAX_AGE_FOR_RATING : Int := 2 * 24 * 60 * 60 * 1000

/-- the `rate <ticket> <rating>` command handler: fetch by id, reject an
unknown or foreign ticket, reject one whose resolution is older than the
rating window, otherwise store the rating. -/
def Support.rateExec (now : Int) (clientUid : String) (ticketArg : Nat)
    (rating : Nat) (st : BaseStoreState) : BaseStoreState × List String :=
  match (BaseStore.getTicketById ticketArg st).head? with
  | none => (st, ["No ticket with this id found!"])
  | some entry =>
    if entry.issuer ≠ clientUid then (st, ["No ticket with this id found!"])
    else if entry.resolvedDate ≤ now - MAX_AGE_FOR_RATING then
      (st, ["Ticket is too old to get rated!"])
    else
      let entry1 := { entry with rating := some rating }
      let p := BaseStore.updateTicket entry1 st
      (p.2, ["You rated ticket with id " ++ toString entry1.id ++ " with " ++
        toString rating ++ " stars!"])

/-!
### Concrete fixtures for counterexamples and witnesses
-/

/-- one configured role, as the plugin builds it at load time. -/
def roleGeneral : Role :=
  Role.ofConfig
    { cid := "30"
      sgid := ["5"]
      permBlacklist := false
      permViewTickets := false
      permDeveloper := false
      department := "general"
      description := "General support" }

/-- an online requester without support groups. -/
def clientU1 : Client := { uid := "u1", nick := "User One", sgids := [] }

/-- an online supporter in group 5. -/
def clientS1 : Client := { uid := "s1", nick := "Supporter One", sgids := ["5"] }

/-- a small concrete environment. -/
def env1 : SupportEnv :=
  { roles := [roleGeneral]
    clients := [clientU1, clientS1]
    channels := ["30"]
    cmdName := "support"
    now := 1000 }

/-- the store right after `setup` on an empty namespace. -/
def store0 : BaseStoreState := { blacklist := [], tickets := [], ticketId := 1 }

/-- an empty orchestrator state over `store0`. -/
def world0 : SupportWorld :=
  { queue := []
    sessions := []
    pendingRequest := []
    challengeQueues := []
    store := store0
    chatLog := []
    moves := [] }

/-- a complete open ticket by `u1` in the general department. -/
def ticketOpen : Ticket :=
  { id := 1
    issuer := "u1"
    issue := "my audio is broken"
    role := roleGeneral
    created := 500
    status := .statusOpen
    supporter := ""
    resolved := false
    resolvedText := "_EMPTY_"
    resolvedDate := 0
    rating := none }

/-- the open-queue entry wrapping `ticketOpen`. -/
def queueEntry1 : Queue := { ticket := ticketOpen }

/-- the offer of `queueEntry1` to supporter `s1`, already presented
(state `REQUEST`). -/
def responseS1 : SupportResponseChallenge :=
  { state := .REQUEST, queueEntry := queueEntry1, uid := "s1" }

/-- `roleGeneral` with an emptied department name. -/
def roleDeptEmpty : Role := { roleGeneral with department := "" }

/-- `ticketOpen` with an empty resolution text and the empty-department
role: the C8 counterexample input. -/
def ticketEmptyResolved : Ticket :=
  { ticketOpen with resolvedText := "", role := roleDeptEmpty }

/-- a closed, resolved, rated-able ticket whose department matches no
configured role: the C8 witness input. -/
def ticketClosedHardware : Ticket :=
  { ticketOpen with
      resolvedText := "driver reinstalled"
      resolvedDate := 900
      status := .statusClosed
      resolved := true
      supporter := "s1"
      role := { roleGeneral with department := "hardware" } }

/-- a store holding the one closed ticket, in serialized form. -/
def storeRated : BaseStoreState :=
  { blacklist := [], tickets := [ticketClosedHardware.serialize], ticketId := 2 }

/-- a `RequestChallenge` by `u1` waiting for the issue description. -/
def requestDescribing : RequestChallenge :=
  { state := .DESCRIBE_ISSUE
    ticket := Ticket.setRole roleGeneral (Ticket.setIssuer "u1" Ticket.newTicket) }

/-- the orchestrator state with `ticketOpen` waiting in the open
queue. -/
def worldQ1 : SupportWorld := { world0 with queue := [queueEntry1] }

/-- a completed `RequestChallenge` wrapping `ticketOpen` (state
`DONE`). -/
def requestDone : RequestChallenge := { state := .DONE, ticket := ticketOpen }

/-- the orchestrator state with `requestDone` still in
`pendingRequest`. -/
def worldPending : SupportWorld := { world0 with pendingRequest := [requestDone] }

end Sinusbot

namespace Sinusbot

/-!
### Small helper lemmas about the JavaScript falsy defaults
-/

theorem jsOrStr_empty_right (a : String) : jsOrStr a "" = a := by
  unfold jsOrStr; split <;> simp_all

theorem jsOrNat_zero_right (a : Nat) : jsOrNat a 0 = a := by
  unfold jsOrNat; split <;> omega

theorem jsOrInt_zero_right (a : Int) : jsOrInt a 0 = a := by
  unfold jsOrInt; split <;> omega

/-- C9: for every blacklist entry and every store state,
`BaseStore.addBlacklist` returns a rejected promise (the uid reported as
already blacklisted) and leaves the stored blacklist unchanged, because
the guard tests the truthiness of the Promise returned by `isBlacklisted`
rather than the resolved boolean. -/
theorem addBlacklist_always_rejects
    (entry : StorageProviderBlackListEntry) (st : BaseStoreState) :
    (BaseStore.addBlacklist entry st).1 =
      JSPromise.rejected ("the uid " ++ entry.uid ++ " is already blacklisted") ∧
    (BaseStore.addBlacklist entry st).2 = st := by
  constructor <;> rfl

/-- C1: `decline()` on a presented `SupportResponseChallenge` does NOT
complete: `nextState(DECLINE)` invokes `challenge()`, which finds no
callback registered for `DECLINE` (the constructor only registers
`REQUEST` and `ACCEPT`) and throws the internal
`No function available to execute next` error.  The state has already
advanced to `DECLINE`, but the owning `ChallengeQueue` is never told to
stop the active entry and start the next one — the `stopActive()` call
is unreachable. -/
theorem decline_signals_missing_callback :
    SupportResponseChallenge.decline env1 responseS1
        { active := some responseS1, challenges := [] } world0 =
      ({ responseS1 with state := .DECLINE },
       { active := some responseS1, challenges := [] },
       world0,
       some "No function available to execute next") := rfl

/-- C4: `SupportSession.start()` with an offline issuer does not log and
abort — `Support.getClient` THROWS (`Client with uid ... not found!`),
so the error propagates out of `start()`; the `if (!issuer ||
!supporter)` log-and-return guard inside `moveTogether` is unreachable.
No client is moved and the world is otherwise untouched. -/
theorem session_start_throws_on_offline_issuer :
    SupportSession.start env1
        { ticket := { ticketOpen with issuer := "offline1", supporter := "s1" } } world0 =
      (world0, some "Client with uid offline1 not found!") := rfl

/-- C8 counterexample: the round-trip claim fails as stated.  Take the
ticket `ticketOpen` with `resolvedText := ""` and a role whose
department is the empty string: after `serialize` / `fromStore` the
`resolvedText` comes back as the default `"_EMPTY_"` (the constructor's
`prefill.resolvedText || "_EMPTY_"`), and the role — whose department
matches no configured role — comes back as `Role.empty()` rather than
the deleted-role sentinel (the empty department is falsy, so the
role-lookup branch is skipped entirely). -/
theorem ticket_roundtrip_counterexample :
    ¬ ((let t := ticketEmptyResolved
        let t2 := Ticket.fromStore [roleGeneral] t.serialize
        t2.id = t.id ∧ t2.issuer = t.issuer ∧ t2.issue = t.issue ∧
          t2.status = t.status ∧ t2.supporter = t.supporter ∧
          t2.resolved = t.resolved ∧ t2.resolvedText = t.resolvedText ∧
          t2.resolvedDate = t.resolvedDate ∧ t2.rating = t.rating) ∧
       (([roleGeneral] : List Role).find?
            (fun r => r.department == ticketEmptyResolved.role.department) = none →
        (Ticket.fromStore [roleGeneral] ticketEmptyResolved.serialize).role =
          Role.deletedRole)) := by
  decide

/-- C8 (amended): for every ticket whose `resolvedText` is non-empty,
`Ticket.fromStore` after `Ticket.serialize` reconstructs the same id,
issuer, issue, status, supporter, resolved flag, resolvedText,
resolvedDate and rating; and when the serialized role's department is
non-empty and matches no configured role, deserialization yields the
deleted-role sentinel instead of throwing.  (The amendment excludes an
empty `resolvedText`, which deserializes to the `"_EMPTY_"` default, and
an empty department, which deserializes to `Role.empty()` instead of
`Role.deleted()`; `created` is not restored at all — the constructor
never reads it — which is why the claim's field list leaves it out.) -/
theorem ticket_roundtrip (roles : List Role) (t : Ticket)
    (hrt : t.resolvedText ≠ "") :
    ((Ticket.fromStore roles t.serialize).id = t.id ∧
     (Ticket.fromStore roles t.serialize).issuer = t.issuer ∧
     (Ticket.fromStore roles t.serialize).issue = t.issue ∧
     (Ticket.fromStore roles t.serialize).status = t.status ∧
     (Ticket.fromStore roles t.serialize).supporter = t.supporter ∧
     (Ticket.fromStore roles t.serialize).resolved = t.resolved ∧
     (Ticket.fromStore roles t.serialize).resolvedText = t.resolvedText ∧
     (Ticket.fromStore roles t.serialize).resolvedDate = t.resolvedDate ∧
     (Ticket.fromStore roles t.serialize).rating = t.rating) ∧
    (t.role.department ≠ "" →
     roles.find? (fun r => r.department == t.role.department) = none →
     (Ticket.fromStore roles t.serialize).role = Role.deletedRole) := by
  simp only [Ticket.fromStore, Ticket.ofPrefill, Ticket.serialize, Role.serialize]
  refine ⟨⟨jsOrNat_zero_right t.id, jsOrStr_empty_right t.issuer,
      jsOrStr_empty_right t.issue, trivial, ?_, Bool.or_false t.resolved,
      ?_, jsOrInt_zero_right t.resolvedDate, trivial⟩, ?_⟩
  · by_cases h : t.supporter = "" <;> simp [jsOrStr, h]
  · unfold jsOrStr
    rw [if_neg hrt]
  · intro hd hf
    rw [if_pos hd, hf]

/-- C8 witness: the amended round-trip theorem applied to a concrete
closed ticket whose department matches no configured role. -/
theorem ticket_roundtrip_witness :
    (Ticket.fromStore [roleGeneral] ticketClosedHardware.serialize).resolvedText =
      ticketClosedHardware.resolvedText ∧
    (Ticket.fromStore [roleGeneral] ticketClosedHardware.serialize).role =
      Role.deletedRole :=
  ⟨(ticket_roundtrip [roleGeneral] ticketClosedHardware (by decide)).1.2.2.2.2.2.2.1,
   (ticket_roundtrip [roleGeneral] ticketClosedHardware (by decide)).2
     (by decide) (by decide)⟩

/-- C6: in state `DESCRIBE_ISSUE` with the issuer online, `setIssue` on
text shorter than 10 characters leaves the challenge (state and ticket,
so the issue text in particular) unchanged, performs no persistence, and
appends exactly the too-short warning followed by the re-sent
`DESCRIBE_ISSUE` prompt; on text of length at least 10 it stores the
issue on the ticket and advances the challenge to `DONE`. -/
theorem setIssue_short_reprompts_long_advances
    (env : SupportEnv) (rc : RequestChallenge) (w : SupportWorld) (issue : String)
    (hstate : rc.state = .DESCRIBE_ISSUE)
    (hon : (env.getClientByUID rc.ticket.issuer).isSome) :
    (issue.length < 10 →
      (RequestChallenge.setIssue env issue rc w).1 = rc ∧
      (RequestChallenge.setIssue env issue rc w).2.store = w.store ∧
      (RequestChallenge.setIssue env issue rc w).2 =
        { w with chatLog := w.chatLog ++
            [(rc.ticket.issuer,
              "Your issue description seems kinda short! Please try again!"),
             (rc.ticket.issuer,
              "\nPlease describe your issue, use the following command:\n" ++
                Format.bold (env.command "describe YOUR_DESCRIPTION_HERE"))] }) ∧
    (10 ≤ issue.length →
      (RequestChallenge.setIssue env issue rc w).1.state = .DONE ∧
      (RequestChallenge.setIssue env issue rc w).1.ticket.issue = issue) := by
  obtain ⟨s, tk⟩ := rc
  simp only at hstate
  subst hstate
  obtain ⟨cl, hcl⟩ := Option.isSome_iff_exists.mp hon
  simp only at hcl
  constructor
  · intro hlen
    refine ⟨?_, ?_, ?_⟩ <;>
      simp [RequestChallenge.setIssue, hlen, SupportWorld.chatTo, hcl,
        RequestChallenge.nextState, RequestChallenge.challenge,
        RequestChallenge.describeIssue]
  · intro hlen
    simp only [RequestChallenge.setIssue, if_neg (not_lt.mpr hlen)]
    exact ⟨rfl, rfl⟩

/-- C6 witness: the concrete challenge `requestDescribing` with a
5-character and a 13-character description. -/
theorem setIssue_witness :
    ((RequestChallenge.setIssue env1 "short" requestDescribing world0).1 =
        requestDescribing ∧
     (RequestChallenge.setIssue env1 "short" requestDescribing world0).2.store =
        world0.store) ∧
    ((RequestChallenge.setIssue env1 "my audio is broken" requestDescribing
        world0).1.state = .DONE ∧
     (RequestChallenge.setIssue env1 "my audio is broken" requestDescribing
        world0).1.ticket.issue = "my audio is broken") :=
  ⟨⟨((setIssue_short_reprompts_long_advances env1 requestDescribing world0 "short"
        rfl (by decide)).1 (by decide)).1,
    ((setIssue_short_reprompts_long_advances env1 requestDescribing world0 "short"
        rfl (by decide)).1 (by decide)).2.1⟩,
   (setIssue_short_reprompts_long_advances env1 requestDescribing world0
      "my audio is broken" rfl (by decide)).2 (by decide)⟩

/-- C7: the `rate` command on a ticket whose `resolvedDate` is at least
`MAX_AGE_FOR_RATING` (2 days) before `now` replies that the ticket is
too old and leaves the store untouched; inside the window (and with no
condition on the ticket's status) the rating is stored for the ticket
id, and every other stored ticket is untouched. -/
theorem rate_rejects_old_persists_recent
    (now : Int) (clientUid : String) (ticketArg rating : Nat)
    (st : BaseStoreState) (entry : StorageProviderTicketEntry)
    (hhead : (BaseStore.getTicketById ticketArg st).head? = some entry)
    (hiss : entry.issuer = clientUid) :
    (entry.resolvedDate ≤ now - MAX_AGE_FOR_RATING →
      (Support.rateExec now clientUid ticketArg rating st).1 = st ∧
      (Support.rateExec now clientUid ticketArg rating st).2 =
        ["Ticket is too old to get rated!"]) ∧
    (now - MAX_AGE_FOR_RATING < entry.resolvedDate →
      ({ entry with rating := some rating } : StorageProviderTicketEntry) ∈
        (Support.rateExec now clientUid ticketArg rating st).1.tickets ∧
      (∀ e ∈ (Support.rateExec now clientUid ticketArg rating st).1.tickets,
        e.id = ticketArg → e.rating = some rating) ∧
      (∀ e ∈ (Support.rateExec now clientUid ticketArg rating st).1.tickets,
        e.id ≠ ticketArg → e ∈ st.tickets)) := by
  have hmem : entry ∈ st.tickets ∧ (entry.id == ticketArg) = true := by
    have h := List.mem_of_mem_head? hhead
    unfold BaseStore.getTicketById at h
    rwa [List.mem_filter] at h
  have hid : entry.id = ticketArg := by
    have h := hmem.2
    simp_all
  unfold Support.rateExec
  simp only [hhead]
  rw [if_neg (by simp [hiss])]
  constructor
  · intro hold
    rw [if_pos hold]
    exact ⟨rfl, rfl⟩
  · intro hnew
    rw [if_neg (not_le.mpr hnew)]
    simp only [BaseStore.updateTicket]
    refine ⟨?_, ?_, ?_⟩
    · have h := List.mem_map_of_mem
        (fun t => if t.id == ({ entry with rating := some rating } :
            StorageProviderTicketEntry).id
          then ({ entry with rating := some rating } : StorageProviderTicketEntry)
          else t)
        hmem.1
      simpa using h
    · intro e he heid
      obtain ⟨x, hxm, hfx⟩ := List.mem_map.mp he
      by_cases hx : x.id = entry.id
      · rw [if_pos (by simpa using hx)] at hfx
        subst hfx
        rfl
      · rw [if_neg (by simpa using hx)] at hfx
        subst hfx
        exact absurd (heid.trans hid.symm) hx
    · intro e he heid
      obtain ⟨x, hxm, hfx⟩ := List.mem_map.mp he
      by_cases hx : x.id = entry.id
      · rw [if_pos (by simpa using hx)] at hfx
        subst hfx
        exact absurd hid heid
      · rw [if_neg (by simpa using hx)] at hfx
        subst hfx
        exact hxm

/-- C7 witness: `u1` rates its closed ticket (resolved at 900) with 4
stars at time 1000, well inside the window: the updated entry is
stored. -/
theorem rate_witness :
    ({ ticketClosedHardware.serialize with rating := some 4 } :
        StorageProviderTicketEntry) ∈
      (Support.rateExec 1000 "u1" 1 4 storeRated).1.tickets :=
  ((rate_rejects_old_persists_recent 1000 "u1" 1 4 storeRated
      ticketClosedHardware.serialize (by decide) rfl).2 (by decide)).1

/-- a `ChallengeQueue` reachable by `add`/`stopActive` operations keeps
the invariant that an empty active slot implies an empty backlog (the
only way `active` becomes `none` is `stopActive`/`next` finding nothing
to shift). -/
theorem challengeQueue_inv_step {α : Type} (op : CQOp α) (q : ChallengeQueue α)
    (h : q.active = none → q.challenges = []) :
    (CQOp.step op q).active = none → (CQOp.step op q).challenges = [] := by
  cases op with
  | add item =>
    cases hqa : q.active with
    | some a => simp [CQOp.step, ChallengeQueue.add, hqa]
    | none =>
      have hq := h hqa
      simp [CQOp.step, ChallengeQueue.add, hqa, hq, ChallengeQueue.next]
  | stopActive =>
    simp only [CQOp.step, ChallengeQueue.stopActive, ChallengeQueue.next]
    cases q.challenges <;> simp

/-- the single-active invariant holds for every operation sequence. -/
theorem challengeQueue_inv_run {α : Type} (ops : List (CQOp α)) :
    (CQOp.run ops).active = none → (CQOp.run ops).challenges = [] := by
  suffices h : ∀ q : ChallengeQueue α, (q.active = none → q.challenges = []) →
      ((ops.foldl (fun q op => CQOp.step op q) q).active = none →
        (ops.foldl (fun q op => CQOp.step op q) q).challenges = []) by
    exact h ChallengeQueue.newQueue (fun _ => rfl)
  induction ops with
  | nil => exact fun q h => h
  | cons op rest ih =>
    intro q h
    exact ih (CQOp.step op q) (challengeQueue_inv_step op q h)

/-- `stopActive` on any queue state: the earliest queued entry (if any)
becomes active and is the started item, the backlog drops it; with an
empty backlog the active slot becomes `undefined`. -/
theorem challengeQueue_stopActive_spec {α : Type} (q : ChallengeQueue α) :
    q.stopActive.1.active = q.challenges.head? ∧
    q.stopActive.2 = q.challenges.head? ∧
    q.stopActive.1.challenges = q.challenges.tail := by
  simp only [ChallengeQueue.stopActive, ChallengeQueue.next]
  cases q.challenges <;> simp

/-- C5: over every sequence of `add`/`stopActive` operations on a
`ChallengeQueue`, (a) at most one entry is active; (b) `stopActive()`
activates and starts the earliest still-queued entry in FIFO order, or
leaves `active` undefined when none remain; (c) `add(item)` starts
`item` immediately when nothing is active. -/
theorem challengeQueue_single_active_fifo {α : Type} (ops : List (CQOp α)) :
    ((CQOp.run ops).active.toList.length ≤ 1) ∧
    (((CQOp.run ops).stopActive.1.active = (CQOp.run ops).challenges.head?) ∧
     ((CQOp.run ops).stopActive.2 = (CQOp.run ops).challenges.head?) ∧
     ((CQOp.run ops).stopActive.1.challenges = (CQOp.run ops).challenges.tail)) ∧
    (∀ item : α, (CQOp.run ops).active = none →
      ((CQOp.run ops).add item).1.active = some item ∧
      ((CQOp.run ops).add item).2 = some item) := by
  refine ⟨?_, challengeQueue_stopActive_spec (CQOp.run ops), ?_⟩
  · cases (CQOp.run ops).active <;> simp
  · intro item hnone
    have hq := challengeQueue_inv_run ops hnone
    simp [ChallengeQueue.add, hnone, hq, ChallengeQueue.next]

/-- C5 witness: after `add 1; stopActive` the queue is drained
(`active = none`), and a further `add 5` starts item 5 immediately. -/
theorem challengeQueue_witness :
    ((CQOp.run ([CQOp.add 1, CQOp.stopActive] : List (CQOp Nat))).add 5).1.active =
      some 5 ∧
    ((CQOp.run ([CQOp.add 1, CQOp.stopActive] : List (CQOp Nat))).add 5).2 =
      some 5 :=
  (challengeQueue_single_active_fifo [CQOp.add 1, CQOp.stopActive]).2.2 5 rfl

/-- one guarded command preserves the `RequestChallenge` invariant: the
command layer only lets `setInquiry` run in `ASK_INQUIRY` and `setIssue`
in `DESCRIBE_ISSUE`, the configured roles are all valid, and the clock
is positive. -/
theorem requestChallenge_inv_step (env : SupportEnv) (op : RequestOp)
    (rc : RequestChallenge) (w : SupportWorld)
    (hroles : ∀ r ∈ env.roles, r.isValid = true) (hnow : 0 < env.now)
    (h : RequestChallengeInv rc) :
    RequestChallengeInv (RequestChallenge.execCmd env op rc w).1 := by
  cases op with
  | request index =>
    simp only [RequestChallenge.execCmd]
    by_cases hst : rc.state = .ASK_INQUIRY
    · rw [if_pos hst]
      simp only [RequestChallenge.setInquiry]
      cases hr : env.roles.get? index with
      | none =>
        refine ⟨h.1, ?_, ?_⟩ <;> intro hc <;>
          simp [RequestChallenge.nextState, RequestChallenge.challenge] at hc
      | some role =>
        refine ⟨h.1, fun _ => hroles role (List.get?_mem hr), ?_⟩
        intro hc
        simp [RequestChallenge.nextState, RequestChallenge.challenge] at hc
    · rw [if_neg hst]
      exact h
  | describe issue =>
    simp only [RequestChallenge.execCmd]
    by_cases hst : rc.state = .DESCRIBE_ISSUE
    · rw [if_pos hst]
      simp only [RequestChallenge.setIssue]
      by_cases hlen : issue.length < 10
      · rw [if_pos hlen]
        split
        · refine ⟨h.1, fun _ => h.2.1 hst, ?_⟩
          intro hc
          simp [RequestChallenge.nextState, RequestChallenge.challenge] at hc
        · exact h
      · rw [if_neg hlen]
        refine ⟨h.1, ?_, fun _ => ?_⟩
        · intro hc
          simp [RequestChallenge.nextState, RequestChallenge.challenge,
            RequestChallenge.complete] at hc
        · have hissue : 0 < issue.length := by omega
          simp only [RequestChallenge.nextState, RequestChallenge.challenge,
            RequestChallenge.complete, Ticket.save, Ticket.setCreated,
            Ticket.setIssueText, Ticket.isValid]
          simp only [Bool.and_eq_true, decide_eq_true_eq]
          exact ⟨⟨⟨h.1, hissue⟩, h.2.1 hst⟩, hnow⟩
    · rw [if_neg hst]
      exact h

/-- the invariant holds after every guarded command sequence. -/
theorem requestChallenge_inv_run (env : SupportEnv) (ops : List RequestOp)
    (rc : RequestChallenge) (w : SupportWorld)
    (hroles : ∀ r ∈ env.roles, r.isValid = true) (hnow : 0 < env.now)
    (h : RequestChallengeInv rc) :
    RequestChallengeInv (RequestChallenge.runCmds env ops rc w).1 := by
  induction ops generalizing rc w with
  | nil => exact h
  | cons op rest ih =>
    simp only [RequestChallenge.runCmds, List.foldl_cons]
    exact ih (RequestChallenge.execCmd env op rc w).1
      (RequestChallenge.execCmd env op rc w).2
      (requestChallenge_inv_step env op rc w hroles hnow h)

/-- C2 counterexample: the claim as stated quantifies over all
`setInquiry`/`setIssue` call sequences.  One direct `setIssue` with a
10-character text, while the challenge still sits in `ASK_INQUIRY`,
drives it straight to `DONE` with no role ever chosen: the ticket is
invalid at `DONE` (its role is the `Role.empty()` placeholder with
`isValid = false`). -/
theorem requestChallenge_done_invalid_counterexample :
    (RequestChallenge.runOps env1 [RequestOp.describe "0123456789"]
        (RequestChallenge.make "u1") world0).1.state = .DONE ∧
    (RequestChallenge.runOps env1 [RequestOp.describe "0123456789"]
        (RequestChallenge.make "u1") world0).1.ticket.isValid = false := by
  decide

/-- C2 (amended): over sequences of `request`/`describe` commands
dispatched through the registered permission checks (which run
`setInquiry` only in `ASK_INQUIRY` and `setIssue` only in
`DESCRIBE_ISSUE`), a challenge built for a client with a non-empty uid,
against valid configured roles and a positive clock, never reaches
`DONE` with an invalid ticket.  (The amendment adds the command-layer
state guard that the counterexample bypasses by calling `setIssue`
directly, plus the ambient facts the deployment guarantees: a connected
client's uid is non-empty and `Date.now()` is positive.) -/
theorem requestChallenge_done_implies_valid (env : SupportEnv)
    (ops : List RequestOp) (uid : String) (w : SupportWorld)
    (hroles : ∀ r ∈ env.roles, r.isValid = true) (hnow : 0 < env.now)
    (huid : 0 < uid.length) :
    (RequestChallenge.runCmds env ops (RequestChallenge.make uid) w).1.state = .DONE →
    (RequestChallenge.runCmds env ops (RequestChallenge.make uid) w).1.ticket.isValid =
      true := by
  have hinv : RequestChallengeInv (RequestChallenge.make uid) := by
    refine ⟨huid, ?_, ?_⟩ <;> intro hc <;> simp [RequestChallenge.make] at hc
  exact (requestChallenge_inv_run env ops (RequestChallenge.make uid) w
    hroles hnow hinv).2.2

/-- a successful `updateTicket` found (and returned the id of) exactly
the replaced entry, which is now stored. -/
theorem updateTicket_found (e : StorageProviderTicketEntry) (st : BaseStoreState)
    (id : Nat) (h : (BaseStore.updateTicket e st).1 = some id) :
    id = e.id ∧ e ∈ (BaseStore.updateTicket e st).2.tickets := by
  simp only [BaseStore.updateTicket] at h ⊢
  cases hf : (st.tickets.map fun t => if t.id == e.id then e else t).find?
      (fun t => t.id == e.id) with
  | none =>
    rw [hf] at h
    simp at h
  | some f =>
    rw [hf] at h
    simp at h
    have hfe : f = e := by
      have hp := List.find?_some hf
      have hm := List.mem_of_find?_eq_some hf
      obtain ⟨x, hx, hfx⟩ := List.mem_map.mp hm
      by_cases hxid : x.id = e.id
      · rw [if_pos (by simpa using hxid)] at hfx
        exact hfx.symm
      · rw [if_neg (by simpa using hxid)] at hfx
        subst hfx
        exact absurd (by simpa using hp) hxid
    subst hfe
    refine ⟨?_, List.mem_of_find?_eq_some hf⟩
    simpa using h.symm

/-- `Ticket.save` always leaves the ticket's serialization — as passed
to the store, carrying the id the ticket had at call time — in the
store: replaced in place on update, appended verbatim on insert (where
the object spread keeps that stale id in the stored record and the
fresh id is only returned, to be stamped on the in-memory ticket). -/
theorem save_serialize_mem (t : Ticket) (st : BaseStoreState) :
    t.serialize ∈ (Ticket.save t st).2.tickets := by
  simp only [Ticket.save, Support.saveTicket]
  cases hu : (BaseStore.updateTicket t.serialize st).1 with
  | none =>
    simp only [hu, BaseStore.addTicket, BaseStore.getTicketId]
    simp
  | some id =>
    by_cases hz : id = 0
    · subst hz
      simp only [hu, if_pos rfl, BaseStore.addTicket, BaseStore.getTicketId]
      simp
    · simp only [hu, if_neg hz]
      exact (updateTicket_found t.serialize st id hu).2

/-- `moveTogether` only records channel moves (or throws): the queue,
session list, store and pending requests are untouched in every
branch. -/
theorem moveTogether_frame (env : SupportEnv) (s : SupportSession)
    (w : SupportWorld) :
    (SupportSession.moveTogether env s w).1.queue = w.queue ∧
    (SupportSession.moveTogether env s w).1.sessions = w.sessions ∧
    (SupportSession.moveTogether env s w).1.store = w.store ∧
    (SupportSession.moveTogether env s w).1.pendingRequest = w.pendingRequest := by
  unfold SupportSession.moveTogether
  split
  · exact ⟨rfl, rfl, rfl, rfl⟩
  · split
    · exact ⟨rfl, rfl, rfl, rfl⟩
    · split
      · exact ⟨rfl, rfl, rfl, rfl⟩
      · exact ⟨rfl, rfl, rfl, rfl⟩

/-- `createSupportSession` appends exactly one session (before `start`
runs, so it survives a throwing move) and leaves queue, store and
pending requests alone. -/
theorem createSupportSession_proj (env : SupportEnv) (t : Ticket)
    (w : SupportWorld) :
    (Support.createSupportSession env t w).1.queue = w.queue ∧
    (Support.createSupportSession env t w).1.sessions =
      w.sessions ++ [{ ticket := t }] ∧
    (Support.createSupportSession env t w).1.store = w.store ∧
    (Support.createSupportSession env t w).1.pendingRequest = w.pendingRequest := by
  unfold Support.createSupportSession SupportSession.start
  obtain ⟨h1, h2, h3, h4⟩ := moveTogether_frame env { ticket := t }
    { w with sessions := w.sessions ++ [{ ticket := t }] }
  exact ⟨h1, h2, h3, h4⟩

/-- with the entry present, `removeFromQueue` erases exactly its first
occurrence. -/
theorem removeFromQueue_mem (entry : Queue) (w : SupportWorld)
    (hmem : entry ∈ w.queue) :
    Support.removeFromQueue entry w =
      ({ w with queue := w.queue.erase entry }, none) := by
  unfold Support.removeFromQueue jsIndexOf
  rw [if_pos hmem]
  rw [if_neg (not_lt.mpr (Int.natCast_nonneg _))]
  simp [List.eraseIdx_indexOf_eq_erase]

/-- C3: accepting a `SupportResponseChallenge` whose queue entry is in
the open-queue list, by a supporter who is online, removes that entry
from the open queue exactly once (the occurrence count drops by one),
stamps the accepting supporter's uid on the ticket and persists that
supporter-stamped serialization (it is stored under the id the ticket
carried at save time: on the insert branch the object spread keeps the
stale id in the stored record, and the fresh id is only stamped on the
in-memory ticket), and appends exactly one new `SupportSession`
carrying the supporter-stamped ticket. -/
theorem accept_elevates (env : SupportEnv) (c : SupportResponseChallenge)
    (w : SupportWorld) (cl : Client)
    (hmem : c.queueEntry ∈ w.queue)
    (hcl : env.getClientByUID c.uid = some cl) :
    (SupportResponseChallenge.accept env c w).2.1.queue =
      w.queue.erase c.queueEntry ∧
    (SupportResponseChallenge.accept env c w).2.1.queue.count c.queueEntry + 1 =
      w.queue.count c.queueEntry ∧
    ({ c.queueEntry.ticket with supporter := c.uid } : Ticket).serialize ∈
      (SupportResponseChallenge.accept env c w).2.1.store.tickets ∧
    (∃ n : Nat, (SupportResponseChallenge.accept env c w).2.1.sessions =
      w.sessions ++
        [{ ticket := { c.queueEntry.ticket with supporter := c.uid, id := n } }]) := by
  have huid : cl.uid = c.uid := by
    unfold SupportEnv.getClientByUID at hcl
    simpa using List.find?_some hcl
  rw [← huid]
  have key : (SupportResponseChallenge.accept env c w).2.1 =
      (Support.createSupportSession env
        (Ticket.save { c.queueEntry.ticket with supporter := cl.uid } w.store).1
        { { w with queue := w.queue.erase c.queueEntry } with
            store :=
              (Ticket.save { c.queueEntry.ticket with supporter := cl.uid }
                w.store).2 }).1 := by
    simp only [SupportResponseChallenge.accept, SupportResponseChallenge.nextState,
      SupportResponseChallenge.challenge, SupportResponseChallenge.accepted, hcl,
      Queue.elevate, removeFromQueue_mem c.queueEntry w hmem, Ticket.setSupporter]
  obtain ⟨hq, hs, hst, _⟩ := createSupportSession_proj env
    (Ticket.save { c.queueEntry.ticket with supporter := cl.uid } w.store).1
    { { w with queue := w.queue.erase c.queueEntry } with
        store :=
          (Ticket.save { c.queueEntry.ticket with supporter := cl.uid } w.store).2 }
  rw [key, hq]
  refine ⟨rfl, ?_, ?_, ?_⟩
  · rw [List.count_erase_self]
    have hpos := List.count_pos_iff.mpr hmem
    omega
  · rw [hst]
    exact save_serialize_mem _ _
  · exact ⟨(Support.saveTicket { c.queueEntry.ticket with supporter := cl.uid }
      w.store).1, by rw [hs]; rfl⟩

/-- C3 witness: supporter `s1` accepts the queued `ticketOpen`: the
queue entry is gone, the supporter-stamped serialization is stored, and
one session carrying the supporter-stamped ticket is created. -/
theorem accept_witness :
    (SupportResponseChallenge.accept env1 responseS1 worldQ1).2.1.queue =
      worldQ1.queue.erase responseS1.queueEntry ∧
    ({ responseS1.queueEntry.ticket with supporter := responseS1.uid } :
        Ticket).serialize ∈
      (SupportResponseChallenge.accept env1 responseS1 worldQ1).2.1.store.tickets ∧
    (∃ n : Nat,
      (SupportResponseChallenge.accept env1 responseS1 worldQ1).2.1.sessions =
        worldQ1.sessions ++
          [{ ticket := { responseS1.queueEntry.ticket with supporter := responseS1.uid, id := n } }]) :=
  ⟨(accept_elevates env1 responseS1 worldQ1 clientS1 (by decide) (by decide)).1,
   (accept_elevates env1 responseS1 worldQ1 clientS1 (by decide) (by decide)).2.2.1,
   (accept_elevates env1 responseS1 worldQ1 clientS1 (by decide) (by decide)).2.2.2⟩

/-- C2 witness: a full guarded dialogue (`request 0`, then a 10-character
description) reaches `DONE` with a valid ticket. -/
theorem requestChallenge_done_valid_witness :
    (RequestChallenge.runCmds env1
        [RequestOp.request 0, RequestOp.describe "0123456789"]
        (RequestChallenge.make "u1") world0).1.ticket.isValid = true :=
  requestChallenge_done_implies_valid env1
    [RequestOp.request 0, RequestOp.describe "0123456789"] "u1" world0
    (by decide) (by decide) (by decide) (by decide)

/-- `chatTo` never touches the pending-request list. -/
theorem chatTo_pendingRequest (env : SupportEnv) (uid text : String)
    (w : SupportWorld) :
    (SupportWorld.chatTo env uid text w).1.pendingRequest = w.pendingRequest := by
  unfold SupportWorld.chatTo
  split <;> rfl

/-- `checkInquiry` only chats: the pending-request list is untouched. -/
theorem checkInquiry_pendingRequest (env : SupportEnv) (rc : RequestChallenge)
    (w : SupportWorld) :
    (RequestChallenge.checkInquiry env rc w).pendingRequest = w.pendingRequest := by
  simp only [RequestChallenge.checkInquiry]
  split
  · rw [chatTo_pendingRequest, chatTo_pendingRequest]
  · rw [chatTo_pendingRequest]

/-- the `REQUEST` callback only chats (or throws): pending requests are
untouched. -/
theorem request_pendingRequest (env : SupportEnv)
    (c : SupportResponseChallenge) (w : SupportWorld) :
    (SupportResponseChallenge.request env c w).2.1.pendingRequest =
      w.pendingRequest := by
  unfold SupportResponseChallenge.request
  split
  · rfl
  · split <;> rfl

/-- `start` on a `SupportResponseChallenge` dispatches to the `REQUEST`
callback. -/
theorem start_pendingRequest (env : SupportEnv)
    (c : SupportResponseChallenge) (w : SupportWorld) :
    (SupportResponseChallenge.start env c w).2.1.pendingRequest =
      w.pendingRequest :=
  request_pendingRequest env { c with state := .REQUEST } w

/-- `addChallengeQueue` touches the per-supporter queues, the chat log
and nothing else relevant: pending requests survive. -/
theorem addChallengeQueue_pendingRequest (env : SupportEnv) (uid : String)
    (item : SupportResponseChallenge) (w : SupportWorld) :
    (Support.addChallengeQueue env uid item w).1.pendingRequest =
      w.pendingRequest := by
  simp only [Support.addChallengeQueue, SupportWorld.setChallengeQueue]
  split
  · rfl
  · exact start_pendingRequest env _ w

/-- a fold whose step preserves the pending-request list preserves it
overall. -/
theorem foldl_preserves_pendingRequest {β : Type}
    (f : SupportWorld × Option String → β → SupportWorld × Option String)
    (hf : ∀ acc b, (f acc b).1.pendingRequest = acc.1.pendingRequest)
    (l : List β) (acc : SupportWorld × Option String) :
    (l.foldl f acc).1.pendingRequest = acc.1.pendingRequest := by
  induction l generalizing acc with
  | nil => rfl
  | cons b rest ih => rw [List.foldl_cons, ih, hf]

/-- `addQueue` pushes the queue entry and fans challenges out, never
touching the pending-request list. -/
theorem addQueue_pendingRequest (env : SupportEnv) (t : Ticket)
    (w : SupportWorld) :
    (Support.addQueue env t w).1.pendingRequest = w.pendingRequest := by
  unfold Support.addQueue
  refine (foldl_preserves_pendingRequest _ ?_ _ _).trans rfl
  intro acc b
  cases h2 : acc.2 with
  | some e => simp [h2]
  | none => simp [h2, addChallengeQueue_pendingRequest]

/-- C10: `Support.getChallengeComplete` never removes the completed
`RequestChallenge` from `pendingRequest` (its `Array.slice` call does
not mutate and its result is discarded), so a finished challenge is
still what `clientGetChallenge` returns for its issuer; and a later
`requestSupport` by the same (non-blacklisted) issuer appends a second
challenge that the first-match lookup never returns. -/
theorem pendingRequest_never_pruned (env : SupportEnv) (w : SupportWorld)
    (c : RequestChallenge) (client : Client) (c1 : RequestChallenge)
    (hfind : Support.clientGetChallenge client.uid w = some c1)
    (hnb : ¬ BaseStore.isBlacklisted client.uid w.store = .resolved true) :
    (Support.getChallengeComplete env c w).1.pendingRequest = w.pendingRequest ∧
    Support.clientGetChallenge client.uid
      (Support.requestSupport env client w).2 = some c1 := by
  constructor
  · unfold Support.getChallengeComplete
    exact addQueue_pendingRequest env c.ticket w
  · unfold Support.requestSupport
    rw [if_neg hnb]
    unfold Support.clientGetChallenge at hfind ⊢
    simp only [RequestChallenge.challenge, RequestChallenge.make]
    rw [checkInquiry_pendingRequest]
    simp only [List.dropLast_concat]
    rw [List.find?_append, hfind]
    rfl

/-- C10 witness: the completed challenge `requestDone` stays pending
after `getChallengeComplete`, and a fresh `requestSupport` by `u1` does
not change what the lookup returns. -/
theorem pendingRequest_witness :
    (Support.getChallengeComplete env1 requestDone worldPending).1.pendingRequest =
      worldPending.pendingRequest ∧
    Support.clientGetChallenge clientU1.uid
      (Support.requestSupport env1 clientU1 worldPending).2 = some requestDone :=
  pendingRequest_never_pruned env1 worldPending requestDone clientU1 requestDone
    (by decide) (by decide)

end Sinusbot
